/-
Verification of the VATEAM repository's sensor-bridge, simulator-façade,
configuration and renderer components, as shallowly embedded Lean
definitions translated from the Python source.

Source files embedded:
  src/carla_interface/sensors.py   (BaseSensor, RGBCamera, LidarSensor,
                                    SemanticCamera, DepthCamera)
  src/carla_interface/simulator.py (CarlaSimulator)
  src/config/settings.py           (Settings._update_dict)
  src/visualization/renderer.py    (Renderer)
-/
import Mathlib

namespace VATEAM

/-! ## Sensor bridge state (sensors.py, BaseSensor)

`BaseSensor.__init__` sets `self.sensor = None`, `self.queue = Queue()`,
`self.thread = None`, `self.running = False`.  Actors and threads are
abstracted to numeric identifiers; decoded frames in the hand-off queue
are abstracted to `Nat` (their content is studied separately in the
decode section).  The unbounded `queue.Queue` is a FIFO list: `put`
appends at the tail, `get_nowait` removes from the head. -/

structure SensorState where
  running : Bool
  thread : Option Nat
  sensor : Option Nat
  queue : List Nat
  deriving Repr, DecidableEq

/-- `BaseSensor.__init__`: no actor, empty queue, no thread, not running. -/
def initSensor : SensorState := ⟨false, none, none, []⟩

/-- `BaseSensor.destroy`: sets `running = False`, joins the thread (which
changes no field), and calls `self.sensor.destroy()` when `self.sensor`
is not `None`.  Neither `self.thread` nor `self.sensor` is cleared.
Returns the new state together with the list of actor ids on which
`destroy()` was invoked. -/
def destroySensor (s : SensorState) : SensorState × List Nat :=
  let s₁ : SensorState := { s with running := false }
  match s₁.sensor with
  | some a => (s₁, [a])
  | none => (s₁, [])

/-- `BaseSensor.get_data`: `self.queue.get_nowait()`, returning `None`
when the queue is empty.  `get_nowait` removes and returns the oldest
(front) entry of the FIFO queue. -/
def getData (s : SensorState) : Option Nat × SensorState :=
  match s.queue with
  | [] => (none, s)
  | x :: xs => (some x, { s with queue := xs })

/-- `RGBCamera._sensor_callback` (queue side): after decoding, the frame
is `put` on the queue, i.e. appended at the tail. -/
def sensorCallbackPut (s : SensorState) (f : Nat) : SensorState :=
  { s with queue := s.queue ++ [f] }

/-- One iteration of `_process_data`'s `while self.running` loop: if the
flag is still set, `self.queue.get(timeout=0.1)` removes (and discards)
the front entry when one exists, otherwise times out and continues. -/
def consumeStep (s : SensorState) : SensorState :=
  if s.running then
    match s.queue with
    | [] => s
    | _ :: xs => { s with queue := xs }
  else s

/-- `RGBCamera.spawn` (and identically `LidarSensor.spawn` etc.):
`world.spawn_actor` either raises (modelled by `spawnResult = none`,
propagated as an error) or yields an actor; on success the actor is
stored, `running` is set and a fresh consumer thread is started.  No
field of the prior state is inspected. -/
def spawnSensor (spawnResult : Option Nat) (tid : Nat) (s : SensorState) :
    Except String SensorState :=
  match spawnResult with
  | none => Except.error "spawn_actor failed"
  | some a =>
      Except.ok { s with sensor := some a, running := true, thread := some tid }

/-- The state of a bridge directly after a successful
`spawnSensor (some 1) 0 initSensor`. -/
def spawnedState : SensorState := ⟨true, some 0, some 1, []⟩

/-- Interleaved events on a spawned bridge: a delivery-thread decode
callback, one background-consumer loop iteration, or one `get_data`
poll by the application. -/
inductive SAct where
  | deliver (f : Nat)
  | consume
  | poll
  deriving Repr, DecidableEq

/-- Run a schedule of events, collecting the results of the `poll`s. -/
def runActs : SensorState → List SAct → SensorState × List (Option Nat)
  | s, [] => (s, [])
  | s, SAct.deliver f :: rest => runActs (sensorCallbackPut s f) rest
  | s, SAct.consume :: rest => runActs (consumeStep s) rest
  | s, SAct.poll :: rest =>
      let p := getData s
      let r := runActs p.2 rest
      (r.1, p.1 :: r.2)

/-! ## Decode step (sensors.py, `_sensor_callback` of each subclass)

`np.frombuffer` reinterprets the raw byte buffer as a flat typed array;
the element type is the buffer's element type, so the decoders are
polymorphic in it (bytes instantiate `α := Nat`, 32-bit floats
`α := Int` below).  `np.reshape` to `(h, w, 4)` splits the flat array
into `h` rows of `w` pixels of `4` channels, i.e. iterated chunking. -/

/-- Split a list into consecutive chunks of `n` elements, structurally
recursing on a fuel bounded below by the number of chunks. -/
def chunksOfAux {α : Type} : Nat → Nat → List α → List (List α)
  | 0, _, _ => []
  | _ + 1, _, [] => []
  | fuel + 1, n, x :: xs => (x :: xs).take n :: chunksOfAux fuel n ((x :: xs).drop n)

/-- Split a list into consecutive chunks of `n` elements (`n > 0`). -/
def chunksOf {α : Type} (n : Nat) (l : List α) : List (List α) :=
  if n = 0 then [] else chunksOfAux l.length n l

/-- `RGBCamera._sensor_callback`: reshape the flat buffer to
`(h, w, 4)` and drop the 4th (alpha) channel via `array[:, :, :3]`. -/
def rgbDecode {α : Type} (h w : Nat) (buf : List α) : List (List (List α)) :=
  let _ := h
  (chunksOf (w * 4) buf).map fun row => (chunksOf 4 row).map fun px => px.take 3

/-- `LidarSensor._sensor_callback`: reshape the flat float buffer to
`(len / 4, 4)`. -/
def lidarDecode {α : Type} (buf : List α) : List (List α) :=
  chunksOf 4 buf

/-- `SemanticCamera._sensor_callback`: reshape to `(h, w, 4)` and keep
channel 0 only via `array[:, :, 0]`. -/
def semanticDecode {α : Type} [Inhabited α] (h w : Nat) (buf : List α) :
    List (List α) :=
  let _ := h
  (chunksOf (w * 4) buf).map fun row => (chunksOf 4 row).map fun px => px.headD default

/-- `DepthCamera._sensor_callback`: textually identical to the semantic
camera's decode — reshape to `(h, w, 4)` and keep channel 0 only. -/
def depthDecode {α : Type} [Inhabited α] (h w : Nat) (buf : List α) :
    List (List α) :=
  let _ := h
  (chunksOf (w * 4) buf).map fun row => (chunksOf 4 row).map fun px => px.headD default

/-! ## Simulator façade (simulator.py, CarlaSimulator)

`__init__` sets `client = None`, `world = None`, `vehicle = None`,
`sensors = {}`, `sensor_data = {}`.  External handles are numeric ids,
the sensor and latest-frame mappings are association lists keyed by
name. -/

structure SimState where
  client : Option Nat
  world : Option Nat
  vehicle : Option Nat
  sensors : List (String × Nat)
  sensorData : List (String × Nat)
  deriving Repr, DecidableEq

/-- `CarlaSimulator.__init__`. -/
def initSim : SimState := ⟨none, none, none, [], []⟩

/-- `CarlaSimulator.disconnect`: calls `sensor.destroy()` on every
registered sensor, then `vehicle.destroy()` when a vehicle is present,
then resets every field.  Returns the list of actors destroyed together
with the final state. -/
def disconnect (s : SimState) : List Nat × SimState :=
  let sensorKills := s.sensors.map Prod.snd
  let vehicleKills := match s.vehicle with
    | some v => [v]
    | none => []
  (sensorKills ++ vehicleKills, initSim)

/-! Geometry for `spawn_vehicle`, with coordinates as rationals. -/

structure Loc where
  x : ℚ
  y : ℚ
  z : ℚ
  deriving Repr, DecidableEq

structure Rot where
  pitch : ℚ
  yaw : ℚ
  roll : ℚ
  deriving Repr, DecidableEq

structure Transform where
  location : Loc
  rotation : Rot
  deriving Repr, DecidableEq

/-- The spawn point built by `CarlaSimulator.spawn_vehicle`:
`carla.Transform(carla.Location(), transform.rotation)` with
`location.x/y` copied from the request and `location.z` lifted by
`0.2` units. -/
def liftedSpawnPoint (t : Transform) : Transform :=
  ⟨⟨t.location.x, t.location.y, t.location.z + 1/5⟩, t.rotation⟩

/-- `CarlaSimulator.spawn_vehicle`: fails when not connected, fails when
the blueprint is absent, otherwise attempts a collision-checked
`try_spawn_actor` at the lifted spawn point (`trySpawn`, returning
`none` on collision).  The inner `RuntimeError` raised on a `None`
result is caught by the surrounding `except` clause and re-wrapped, so
the propagated message carries the prefix twice. -/
def spawnVehicle (connected : Bool) (blueprintFound : Bool)
    (trySpawn : Transform → Option Nat) (model : String) (t : Transform) :
    Except String Nat :=
  if connected = false then
    Except.error "Cannot spawn vehicle: World is not connected"
  else if blueprintFound = false then
    Except.error ("Vehicle model " ++ model ++ " not found")
  else
    match trySpawn (liftedSpawnPoint t) with
    | none =>
        Except.error
          "Failed to spawn vehicle: Failed to spawn vehicle: Spawn failed because of collision at spawn position"
    | some v => Except.ok v

/-! ## Configuration merge (settings.py, Settings._update_dict)

YAML values are nested dictionaries and scalars; dictionaries are
insertion-ordered association lists (Python dict semantics: assigning
to an existing key updates it in place, assigning a new key appends).
`_update_dict` iterates over the update's items; a dict-valued item
recurses into `d.get(k, {})`, any other item is assigned directly.
When `d` is not a dict, `d.get` raises `AttributeError` and item
assignment raises `TypeError` — both modelled as `Except.error ()`. -/

inductive Val where
  | scalar : Nat → Val
  | dict : List (String × Val) → Val
  deriving Repr

/-- Python `d.get(k, default)` on an association list. -/
def lookupD (es : List (String × Val)) (k : String) (dflt : Val) : Val :=
  match es.find? (fun p => p.1 = k) with
  | some p => p.2
  | none => dflt

/-- Python `d[k] = v`: update in place when `k` is present, else append. -/
def setKey (es : List (String × Val)) (k : String) (v : Val) :
    List (String × Val) :=
  if es.any (fun p => p.1 = k) then
    es.map fun p => if p.1 = k then (k, v) else p
  else es ++ [(k, v)]

/-- `Settings._update_dict(d, u)` with `u` given by its item list: for
each `(k, v)` in order, if `v` is a dict then
`d[k] = _update_dict(d.get(k, {}), v)`, else `d[k] = v`; returns `d`.
Both operations require `d` to be a dict and raise otherwise; an empty
item list performs no operation at all on `d`. -/
def updateEntries : Val → List (String × Val) → Except Unit Val
  | d, [] => Except.ok d
  | d, (k, Val.scalar x) :: rest =>
      match d with
      | Val.dict es => updateEntries (Val.dict (setKey es k (Val.scalar x))) rest
      | Val.scalar _ => Except.error ()
  | d, (k, Val.dict uv) :: rest =>
      match d with
      | Val.dict es =>
          match updateEntries (lookupD es k (Val.dict [])) uv with
          | Except.error e => Except.error e
          | Except.ok newSub => updateEntries (Val.dict (setKey es k newSub)) rest
      | Val.scalar _ => Except.error ()

/-! ## Renderer (renderer.py, Renderer)

`__init__` stores `save_video`, sets `video_writer = None` and
`frame_count = 0`.  Frames and writer handles are abstracted away;
only the fields the frame counter and auto-naming depend on are kept. -/

structure RendererState where
  saveVideo : Bool
  videoWriter : Option Nat
  frameCount : Nat
  deriving Repr, DecidableEq

/-- `Renderer.__init__(output_dir, save_video, fps)`. -/
def mkRenderer (sv : Bool) : RendererState := ⟨sv, none, 0⟩

/-- `Renderer.setup_video_writer`: returns immediately when
`save_video` is off, otherwise opens a writer. -/
def setupVideoWriter (r : RendererState) (wid : Nat) : RendererState :=
  if r.saveVideo = false then r else { r with videoWriter := some wid }

/-- `Renderer.render_frame` (state effect only): when
`self.save_video and self.video_writer is not None`, the frame is
written and `self.frame_count += 1`; otherwise no field changes. -/
def renderFrame (r : RendererState) : RendererState :=
  if r.saveVideo = true ∧ r.videoWriter.isSome = true then
    { r with frameCount := r.frameCount + 1 }
  else r

/-- `Renderer.cleanup`: releases and clears the writer. -/
def cleanupRenderer (r : RendererState) : RendererState :=
  { r with videoWriter := none }

/-- Python `f"{n:06d}"` for a natural number: left-pad the decimal
representation with zeros to width 6. -/
def zeroPad6 (n : Nat) : String :=
  let s := toString n
  String.mk (List.replicate (6 - s.length) (Char.ofNat 48) ++ s.data)

/-- The filename used by `Renderer.save_frame` when `filename is None`:
`f"frame_{self.frame_count:06d}.jpg"`; an explicit filename is used
verbatim. -/
def saveFrameName (filename : Option String) (r : RendererState) : String :=
  match filename with
  | some f => f
  | none => "frame_" ++ zeroPad6 r.frameCount ++ ".jpg"

/-- The renderer operations that run between construction and teardown. -/
inductive ROp where
  | setup (wid : Nat)
  | render
  | cleanup
  deriving Repr, DecidableEq

/-- Run a sequence of renderer operations. -/
def runROps (r : RendererState) : List ROp → RendererState
  | [] => r
  | ROp.setup wid :: rest => runROps (setupVideoWriter r wid) rest
  | ROp.render :: rest => runROps (renderFrame r) rest
  | ROp.cleanup :: rest => runROps (cleanupRenderer r) rest

/-- Whether a renderer operation is a `setup_video_writer` call. -/
def isSetup : ROp → Bool
  | ROp.setup _ => true
  | _ => false

/-- The decode contract of claim C5 for one raw RGB-style byte buffer
of height `h` and width `w`, one raw float buffer of `n` points, at the
given element types: the decoded arrays have exactly the documented
shapes, the RGB pixels are the first 3 of each pixel's 4 channels, the
range-sensor points are the consecutive 4-float groups, and the
semantic/depth image keeps channel 0 of each pixel only. -/
def DecodeContract (h w n : Nat) (buf : List Nat) (fbuf : List Int) : Prop :=
  rgbDecode h w buf
      = ((List.range h).map fun i => (List.range w).map fun j =>
          ((buf.drop (i * (w * 4) + j * 4)).take 4).take 3) ∧
  (rgbDecode h w buf).length = h ∧
  (∀ row ∈ rgbDecode h w buf, row.length = w ∧ ∀ px ∈ row, px.length = 3) ∧
  lidarDecode fbuf
      = ((List.range n).map fun i => (fbuf.drop (i * 4)).take 4) ∧
  (lidarDecode fbuf).length = n ∧
  (∀ pt ∈ lidarDecode fbuf, pt.length = 4) ∧
  semanticDecode h w buf
      = ((List.range h).map fun i => (List.range w).map fun j =>
          ((buf.drop (i * (w * 4) + j * 4)).take 4).headD default) ∧
  (semanticDecode h w buf).length = h ∧
  (∀ row ∈ semanticDecode h w buf, row.length = w) ∧
  depthDecode h w buf = semanticDecode h w buf

/-! ## Theorems -/

/-- C1 counterexample: on a spawned bridge, two successive `destroy()`
calls invoke the underlying actor's `destroy()` once each — twice in
total, not at most once — and after the first call the bridge still
holds a live actor reference, because `destroy` never clears
`self.sensor`. -/
theorem C1_destroy_counterexample :
    (destroySensor spawnedState).2 ++ (destroySensor (destroySensor spawnedState).1).2
      = [1, 1] ∧
    (destroySensor spawnedState).1.sensor = some 1 := by
  decide

/-- C1 (amended): calling `destroy()` twice on a bridge holding an actor
does clear the running flag, and the second call reproduces the first
call's state exactly; but the thread and actor references are never
cleared, and the underlying actor's `destroy()` is invoked once per
call — twice across both calls, not at most once. -/
theorem C1_destroy_twice (s : SensorState) (a : Nat) (h : s.sensor = some a) :
    (destroySensor s).1.running = false ∧
    (destroySensor s).1.thread = s.thread ∧
    (destroySensor s).1.sensor = some a ∧
    (destroySensor s).2 = [a] ∧
    (destroySensor (destroySensor s).1).1 = (destroySensor s).1 ∧
    (destroySensor (destroySensor s).1).2 = [a] := by
  obtain ⟨r, t, sn, q⟩ := s
  cases h
  exact ⟨rfl, rfl, rfl, rfl, rfl, rfl⟩

/-- C1 witness: the amended statement instantiated at the spawned
bridge state, whose actor id is 1. -/
theorem C1_destroy_twice_witness :
    (destroySensor spawnedState).1.running = false ∧
    (destroySensor spawnedState).1.thread = spawnedState.thread ∧
    (destroySensor spawnedState).1.sensor = some 1 ∧
    (destroySensor spawnedState).2 = [1] ∧
    (destroySensor (destroySensor spawnedState).1).1 = (destroySensor spawnedState).1 ∧
    (destroySensor (destroySensor spawnedState).1).2 = [1] :=
  C1_destroy_twice spawnedState 1 rfl

/-- C2 counterexample: with frames 10 then 20 queued (20 most recently),
`get_data()` returns frame 10 — the oldest entry, not the most recently
queued one. -/
theorem C2_getData_counterexample :
    (sensorCallbackPut (sensorCallbackPut spawnedState 10) 20).queue.getLast?
      = some 20 ∧
    (getData (sensorCallbackPut (sensorCallbackPut spawnedState 10) 20)).1
      = some 10 ∧
    (10 : Nat) ≠ 20 := by
  decide

/-- C2 (amended): `get_data()` is a total function of the state — it
never blocks and never raises — and returns the oldest queued frame
(the head of the FIFO queue), or `None` when the queue is empty; in
particular, on a freshly constructed, not-yet-spawned bridge it
returns `None`. -/
theorem C2_getData_oldest :
    (∀ s : SensorState, (getData s).1 = s.queue.head?) ∧
    (getData initSensor).1 = none := by
  constructor
  · intro s
    obtain ⟨r, t, sn, q⟩ := s
    cases q <;> rfl
  · rfl

/-- C3 counterexample: after `spawn()` the background consumer started
by `spawn()` may take a step between the deliveries and the polls; for
frames 10 and 20 followed by one consumer iteration, the two
`get_data()` calls return `[some 20, none]`, not the two frames in FIFO
order. -/
theorem C3_fifo_counterexample :
    (runActs spawnedState
        [SAct.deliver 10, SAct.deliver 20, SAct.consume, SAct.poll, SAct.poll]).2
      = [some 20, none] ∧
    [some 20, none] ≠ ([10, 20].map some) := by
  decide

/-- Delivering frames appends them to the queue in arrival order. -/
theorem runActs_deliver_append (fs : List Nat) (s : SensorState)
    (acts : List SAct) :
    runActs s (fs.map SAct.deliver ++ acts)
      = runActs { s with queue := s.queue ++ fs } acts := by
  induction fs generalizing s with
  | nil => simp
  | cons f fs ih =>
      have h1 : runActs s ((f :: fs).map SAct.deliver ++ acts)
          = runActs (sensorCallbackPut s f) (fs.map SAct.deliver ++ acts) := rfl
      rw [h1, ih]
      simp [sensorCallbackPut, List.append_assoc]

/-- Polling a state whose queue holds exactly `fs` once per frame
returns the frames in order. -/
theorem runActs_polls (fs : List Nat) (s : SensorState) (h : s.queue = fs) :
    (runActs s (List.replicate fs.length SAct.poll)).2 = fs.map some := by
  induction fs generalizing s with
  | nil => simp [runActs]
  | cons f fs ih =>
      obtain ⟨r, t, sn, q⟩ := s
      simp only at h
      cases h
      simp only [List.length_cons, List.replicate_succ, runActs, getData,
        List.map_cons]
      rw [ih _ rfl]

/-- C3 (amended): after `spawn()`, delivering `N` raw frames through the
decode step and then calling `get_data()` `N` times returns the `N`
frames in arrival (FIFO) order, provided the background consumer that
`spawn()` started takes no step in between; a consumer step may
instead silently discard queued frames (see the counterexample). -/
theorem C3_fifo_without_consumer (fs : List Nat) :
    (runActs spawnedState
        (fs.map SAct.deliver ++ List.replicate fs.length SAct.poll)).2
      = fs.map some := by
  rw [runActs_deliver_append]
  exact runActs_polls fs _ rfl

/-- C4 counterexample: a first `spawn()` on a fresh bridge succeeds, and
a second `spawn()` on the resulting state also returns normally — it
signals no invalid-state error, and simply overwrites the stored actor
and thread references. -/
theorem C4_second_spawn_counterexample :
    spawnSensor (some 1) 0 initSensor = Except.ok spawnedState ∧
    spawnSensor (some 2) 1 spawnedState
      = Except.ok ⟨true, some 1, some 2, []⟩ := by
  exact ⟨rfl, rfl⟩

/-- C4 (amended): `spawn()` never inspects the prior lifecycle state:
whenever actor construction succeeds it returns normally — on a fresh
bridge and equally on one already spawned — storing the new actor and
thread and leaving the previous actor without a destroy call. -/
theorem C4_spawn_overwrites (s : SensorState) (a t : Nat) :
    spawnSensor (some a) t s
      = Except.ok { running := true, thread := some t, sensor := some a,
                    queue := s.queue } := by
  obtain ⟨r, th, sn, q⟩ := s
  rfl

/-- Characterization of the fuelled chunking: with enough fuel and an
exact multiple of the chunk size, the chunks are the consecutive
`n`-element windows. -/
theorem chunksOfAux_spec {α : Type} (k : Nat) :
    ∀ (fuel n : Nat) (l : List α), 0 < n → l.length = k * n → l.length ≤ fuel →
      chunksOfAux fuel n l = (List.range k).map fun i => (l.drop (i * n)).take n := by
  induction k with
  | zero =>
      intro fuel n l _ hl _
      have hnil : l = [] := List.eq_nil_of_length_eq_zero (by simpa using hl)
      subst hnil
      cases fuel <;> rfl
  | succ k ih =>
      intro fuel n l hn hl hf
      have hpos : 0 < l.length := by
        rw [hl]; exact Nat.mul_pos (Nat.succ_pos k) hn
      obtain ⟨x, xs, rfl⟩ : ∃ x xs, l = x :: xs := by
        cases l with
        | nil => simp at hpos
        | cons x xs => exact ⟨x, xs, rfl⟩
      obtain ⟨f, rfl⟩ : ∃ f, fuel = f + 1 := by
        cases fuel with
        | zero => omega
        | succ f => exact ⟨f, rfl⟩
      have hdrop : ((x :: xs).drop n).length = k * n := by
        rw [List.length_drop, hl, Nat.succ_mul]
        omega
      have hfuel : ((x :: xs).drop n).length ≤ f := by
        rw [List.length_drop]
        omega
      show (x :: xs).take n :: chunksOfAux f n ((x :: xs).drop n) = _
      rw [ih f n ((x :: xs).drop n) hn hdrop hfuel,
        List.range_succ_eq_map, List.map_cons, List.map_map]
      congr 1
      · simp
      · apply List.map_congr_left
        intro i _
        simp only [Function.comp_apply]
        rw [List.drop_drop]
        congr 2
        rw [Nat.succ_mul]
        omega

/-- `chunksOf n` on a list of length `k * n` yields the `k` consecutive
`n`-element windows. -/
theorem chunksOf_spec {α : Type} (n k : Nat) (l : List α) (hn : 0 < n)
    (hl : l.length = k * n) :
    chunksOf n l = (List.range k).map fun i => (l.drop (i * n)).take n := by
  unfold chunksOf
  rw [if_neg (Nat.pos_iff_ne_zero.mp hn)]
  exact chunksOfAux_spec k l.length n l hn hl le_rfl

/-- Two-level chunking (rows of `m * n` elements, pixels of `n`): each
inner cell is the `n`-element window at flat offset
`i * (m * n) + j * n`, mapped through `f`. -/
theorem chunksOf_grid {α β : Type} (k m n : Nat) (hn : 0 < n)
    (hmn : 0 < m * n) (l : List α) (hl : l.length = k * (m * n))
    (f : List α → β) :
    (chunksOf (m * n) l).map (fun row => (chunksOf n row).map f)
      = (List.range k).map fun i => (List.range m).map fun j =>
          f ((l.drop (i * (m * n) + j * n)).take n) := by
  rw [chunksOf_spec (m * n) k l hmn hl, List.map_map]
  apply List.map_congr_left
  intro i hi
  rw [List.mem_range] at hi
  simp only [Function.comp_apply]
  have hrow : ((l.drop (i * (m * n))).take (m * n)).length = m * n := by
    rw [List.length_take, List.length_drop, hl]
    have h1 : (i + 1) * (m * n) ≤ k * (m * n) :=
      mul_le_mul_right' (Nat.succ_le_of_lt hi) (m * n)
    rw [Nat.succ_mul] at h1
    omega
  rw [chunksOf_spec n m _ hn hrow, List.map_map]
  apply List.map_congr_left
  intro j hj
  rw [List.mem_range] at hj
  simp only [Function.comp_apply]
  congr 1
  rw [List.drop_take, List.take_take, List.drop_drop]
  congr 1
  have h2 : (j + 1) * n ≤ m * n := mul_le_mul_right' (Nat.succ_le_of_lt hj) n
  rw [Nat.succ_mul] at h2
  omega

/-- Bound on the flat offset of pixel `(i, j)` in an `h × w × 4` grid. -/
theorem grid_offset_le (h w i j : Nat) (hi : i < h) (hj : j < w) :
    i * (w * 4) + j * 4 + 4 ≤ h * (w * 4) := by
  have h1 : (j + 1) * 4 ≤ w * 4 := mul_le_mul_right' (Nat.succ_le_of_lt hj) 4
  have h2 : (i + 1) * (w * 4) ≤ h * (w * 4) :=
    mul_le_mul_right' (Nat.succ_le_of_lt hi) (w * 4)
  rw [Nat.succ_mul] at h1 h2
  have h3 : j * 4 + 4 ≤ w * 4 := h1
  linarith

/-- C5: for every supported sensor kind, decoding a raw buffer of the
documented layout and size yields an array of exactly the documented
shape, with the documented transform (alpha channel dropped for RGB,
reshape only for the range sensor, channel 0 kept for semantic/depth);
element types are preserved by construction, the decoders being
polymorphic in the buffer's element type (bytes here `Nat`, 32-bit
floats here `Int`). -/
theorem C5_decode_shapes (h w n : Nat) (buf : List Nat) (fbuf : List Int)
    (hw : 0 < w) (hbuf : buf.length = h * w * 4) (hf : fbuf.length = n * 4) :
    DecodeContract h w n buf fbuf := by
  have hw4 : 0 < w * 4 := Nat.mul_pos hw (by norm_num)
  have hbuf' : buf.length = h * (w * 4) := by rw [hbuf, Nat.mul_assoc]
  have hrgb : rgbDecode h w buf
      = ((List.range h).map fun i => (List.range w).map fun j =>
          ((buf.drop (i * (w * 4) + j * 4)).take 4).take 3) := by
    unfold rgbDecode
    exact chunksOf_grid h w 4 (by norm_num) hw4 buf hbuf' (fun px => px.take 3)
  have hsem : semanticDecode h w buf
      = ((List.range h).map fun i => (List.range w).map fun j =>
          ((buf.drop (i * (w * 4) + j * 4)).take 4).headD default) := by
    unfold semanticDecode
    exact chunksOf_grid h w 4 (by norm_num) hw4 buf hbuf'
      (fun px => px.headD default)
  have hlid : lidarDecode fbuf
      = ((List.range n).map fun i => (fbuf.drop (i * 4)).take 4) := by
    unfold lidarDecode
    exact chunksOf_spec 4 n fbuf (by norm_num) hf
  refine ⟨hrgb, ?_, ?_, hlid, ?_, ?_, hsem, ?_, ?_, rfl⟩
  · rw [hrgb]; simp
  · rw [hrgb]
    intro row hrow
    obtain ⟨i, hi, rfl⟩ := List.mem_map.mp hrow
    rw [List.mem_range] at hi
    refine ⟨by simp, ?_⟩
    intro px hpx
    obtain ⟨j, hj, rfl⟩ := List.mem_map.mp hpx
    rw [List.mem_range] at hj
    have hb := grid_offset_le h w i j hi hj
    rw [List.length_take, List.length_take, List.length_drop, hbuf']
    omega
  · rw [hlid]; simp
  · rw [hlid]
    intro pt hpt
    obtain ⟨i, hi, rfl⟩ := List.mem_map.mp hpt
    rw [List.mem_range] at hi
    have h1 : (i + 1) * 4 ≤ n * 4 := mul_le_mul_right' (Nat.succ_le_of_lt hi) 4
    rw [Nat.succ_mul] at h1
    rw [List.length_take, List.length_drop, hf]
    omega
  · rw [hsem]; simp
  · rw [hsem]
    intro row hrow
    obtain ⟨i, _, rfl⟩ := List.mem_map.mp hrow
    simp

/-- C5 witness: the decode contract evaluated at a 1×2 RGB/semantic
byte buffer and a 1-point float buffer. -/
theorem C5_decode_shapes_witness :
    (0 : Nat) < 2 ∧ ([0, 1, 2, 3, 4, 5, 6, 7] : List Nat).length = 1 * 2 * 4 ∧
    ([10, 20, 30, 40] : List Int).length = 1 * 4 ∧
    DecodeContract 1 2 1 [0, 1, 2, 3, 4, 5, 6, 7] [10, 20, 30, 40] :=
  ⟨by decide, by decide, by decide,
    C5_decode_shapes 1 2 1 [0, 1, 2, 3, 4, 5, 6, 7] [10, 20, 30, 40]
      (by decide) (by decide) (by decide)⟩


/-- C6: `spawn_vehicle` places the spawn point exactly 0.2 units above
the requested Z while keeping the requested x, y and rotation, and when
the collision-checked `try_spawn_actor` fails because the position is
occupied it propagates an error whose message contains the word
"collision". -/
theorem C6_spawn_vehicle (trySpawn : Transform → Option Nat) (model : String)
    (t : Transform) (hcol : trySpawn (liftedSpawnPoint t) = none) :
    (liftedSpawnPoint t).location.x = t.location.x ∧
    (liftedSpawnPoint t).location.y = t.location.y ∧
    (liftedSpawnPoint t).location.z = t.location.z + 1/5 ∧
    (liftedSpawnPoint t).rotation = t.rotation ∧
    ∃ msg : String,
      spawnVehicle true true trySpawn model t = Except.error msg ∧
      List.IsInfix "collision".data msg.data := by
  refine ⟨rfl, rfl, rfl, rfl, ?_⟩
  refine ⟨"Failed to spawn vehicle: Failed to spawn vehicle: Spawn failed because of collision at spawn position",
    ?_, ?_⟩
  · simp [spawnVehicle, hcol]
  · exact ⟨"Failed to spawn vehicle: Failed to spawn vehicle: Spawn failed because of ".data,
      " at spawn position".data, by decide⟩

/-- C6 witness: a request at (1, 2, 3) whose collision check always
fails. -/
theorem C6_spawn_vehicle_witness :
    (fun _ : Transform => (none : Option Nat))
        (liftedSpawnPoint ⟨⟨1, 2, 3⟩, ⟨0, 0, 0⟩⟩) = none ∧
    ((liftedSpawnPoint ⟨⟨1, 2, 3⟩, ⟨0, 0, 0⟩⟩).location.x = (1 : ℚ) ∧
     (liftedSpawnPoint ⟨⟨1, 2, 3⟩, ⟨0, 0, 0⟩⟩).location.y = (2 : ℚ) ∧
     (liftedSpawnPoint ⟨⟨1, 2, 3⟩, ⟨0, 0, 0⟩⟩).location.z = (3 : ℚ) + 1/5 ∧
     (liftedSpawnPoint ⟨⟨1, 2, 3⟩, ⟨0, 0, 0⟩⟩).rotation = ⟨0, 0, 0⟩ ∧
     ∃ msg : String,
       spawnVehicle true true (fun _ => none) "vehicle.tesla.model3"
           ⟨⟨1, 2, 3⟩, ⟨0, 0, 0⟩⟩ = Except.error msg ∧
       List.IsInfix "collision".data msg.data) :=
  ⟨rfl, C6_spawn_vehicle (fun _ => none) "vehicle.tesla.model3"
    ⟨⟨1, 2, 3⟩, ⟨0, 0, 0⟩⟩ rfl⟩

/-- C7: `disconnect()` on a façade with zero registered sensors and no
spawned vehicle performs no actor destruction (so nothing can raise)
and leaves every façade field empty: client, world and vehicle cleared,
sensor and sensor-data mappings empty. -/
theorem C7_disconnect_empty (s : SimState) (hs : s.sensors = [])
    (hv : s.vehicle = none) :
    disconnect s
      = ([], { client := none, world := none, vehicle := none,
               sensors := [], sensorData := [] }) := by
  obtain ⟨c, w, v, sen, sd⟩ := s
  simp only at hs hv
  subst hs; subst hv
  rfl

/-- C7 witness: a connected façade that never spawned anything. -/
theorem C7_disconnect_empty_witness :
    (SimState.mk (some 5) (some 6) none [] []).sensors = [] ∧
    (SimState.mk (some 5) (some 6) none [] []).vehicle = none ∧
    disconnect (SimState.mk (some 5) (some 6) none [] [])
      = ([], { client := none, world := none, vehicle := none,
               sensors := [], sensorData := [] }) :=
  ⟨rfl, rfl, C7_disconnect_empty (SimState.mk (some 5) (some 6) none [] []) rfl rfl⟩

/-- C8: the configuration merge recursively applies user settings over
defaults — on the spec's example, defaults `a: (x:1, y:2)` merged with
override `a: (y:3, z:4)` give `a: (x:1, y:3, z:4)` — and in general a
dict-valued key merges recursively into the existing value while any
other key replaces it. -/
theorem C8_merge :
    updateEntries
        (Val.dict [("a", Val.dict [("x", Val.scalar 1), ("y", Val.scalar 2)])])
        [("a", Val.dict [("y", Val.scalar 3), ("z", Val.scalar 4)])]
      = Except.ok
          (Val.dict [("a", Val.dict
            [("x", Val.scalar 1), ("y", Val.scalar 3), ("z", Val.scalar 4)])]) ∧
    (∀ (es : List (String × Val)) (k : String) (x : Nat),
      updateEntries (Val.dict es) [(k, Val.scalar x)]
        = Except.ok (Val.dict (setKey es k (Val.scalar x)))) ∧
    (∀ (es uv : List (String × Val)) (k : String),
      updateEntries (Val.dict es) [(k, Val.dict uv)]
        = (updateEntries (lookupD es k (Val.dict [])) uv).map
            fun sub => Val.dict (setKey es k sub)) := by
  refine ⟨rfl, fun es k x => rfl, fun es uv k => ?_⟩
  rcases h : updateEntries (lookupD es k (Val.dict [])) uv with e | sub <;>
    simp [updateEntries, h, Except.map]

/-- On a non-dict scalar, `_update_dict` raises on the first item of a
non-empty update: `d.get` raises `AttributeError` when the item's value
is a dict, item assignment raises `TypeError` otherwise. -/
theorem updateEntries_scalar_error (s : Nat) (u : List (String × Val))
    (hu : u ≠ []) : updateEntries (Val.scalar s) u = Except.error () := by
  cases u with
  | nil => exact absurd rfl hu
  | cons kv rest =>
      obtain ⟨k, v⟩ := kv
      cases v <;> rfl

/-- C9 counterexample: with defaults mapping "a" to the scalar 1 and an
override mapping "a" to the (empty) dict, `_update_dict` does not raise:
the recursive call iterates over zero items and returns the scalar
unchanged, so the merge succeeds with the scalar still in place. -/
theorem C9_empty_override_counterexample :
    updateEntries (Val.dict [("a", Val.scalar 1)]) [("a", Val.dict [])]
      = Except.ok (Val.dict [("a", Val.scalar 1)]) ∧
    updateEntries (Val.dict [("a", Val.scalar 1)]) [("a", Val.dict [])]
      ≠ Except.error () := by
  refine ⟨rfl, ?_⟩
  intro h
  exact Except.noConfusion (rfl.trans h)

/-- C9 (amended): when a user override maps a key to a NON-EMPTY dict
while the existing default value at that key is a non-dict scalar,
`_update_dict` raises (attempting dict operations on the scalar);
an override mapping the key to an empty dict instead returns without
raising, leaving the scalar in place. -/
theorem C9_dict_over_scalar (es : List (String × Val)) (k : String) (s : Nat)
    (p : String × Val) (uv : List (String × Val))
    (hlk : lookupD es k (Val.dict []) = Val.scalar s) :
    updateEntries (Val.dict es) [(k, Val.dict (p :: uv))] = Except.error () := by
  have h := updateEntries_scalar_error s (p :: uv) (by simp)
  simp [updateEntries, hlk, h]

/-- C9 witness: defaults mapping "a" to scalar 1, override mapping "a"
to the one-entry dict (y: 3). -/
theorem C9_dict_over_scalar_witness :
    lookupD [("a", Val.scalar 1)] "a" (Val.dict []) = Val.scalar 1 ∧
    updateEntries (Val.dict [("a", Val.scalar 1)])
        [("a", Val.dict [("y", Val.scalar 3)])] = Except.error () :=
  ⟨rfl, C9_dict_over_scalar [("a", Val.scalar 1)] "a" 1 ("y", Val.scalar 3) [] rfl⟩

/-- `runROps` changes no frame count while `save_video` is off. -/
theorem runROps_no_video (ops : List ROp) :
    ∀ r : RendererState, r.saveVideo = false →
      (runROps r ops).frameCount = r.frameCount ∧
      (runROps r ops).saveVideo = false := by
  induction ops with
  | nil => intro r h; exact ⟨rfl, h⟩
  | cons op rest ih =>
      intro r h
      cases op with
      | setup wid =>
          have hstep : runROps r (ROp.setup wid :: rest)
              = runROps (setupVideoWriter r wid) rest := rfl
          rw [hstep, setupVideoWriter, if_pos h]
          exact ih r h
      | render =>
          have hstep : runROps r (ROp.render :: rest)
              = runROps (renderFrame r) rest := rfl
          rw [hstep, renderFrame, if_neg (by simp [h])]
          exact ih r h
      | cleanup =>
          have hstep : runROps r (ROp.cleanup :: rest)
              = runROps (cleanupRenderer r) rest := rfl
          rw [hstep]
          exact ih (cleanupRenderer r) h

/-- `runROps` changes no frame count while the writer is absent and no
setup operation occurs. -/
theorem runROps_no_writer (ops : List ROp) :
    ∀ r : RendererState, r.videoWriter = none →
      (∀ op ∈ ops, isSetup op = false) →
      (runROps r ops).frameCount = r.frameCount ∧
      (runROps r ops).videoWriter = none := by
  induction ops with
  | nil => intro r hw _; exact ⟨rfl, hw⟩
  | cons op rest ih =>
      intro r hw hns
      have hrest : ∀ op ∈ rest, isSetup op = false := by
        intro o ho; exact hns o (List.mem_cons_of_mem _ ho)
      cases op with
      | setup wid => simpa [isSetup] using hns (ROp.setup wid) (List.mem_cons_self _ _)
      | render =>
          have hstep : runROps r (ROp.render :: rest)
              = runROps (renderFrame r) rest := rfl
          rw [hstep, renderFrame, if_neg (by simp [hw])]
          exact ih r hw hrest
      | cleanup =>
          have hstep : runROps r (ROp.cleanup :: rest)
              = runROps (cleanupRenderer r) rest := rfl
          rw [hstep]
          exact ih (cleanupRenderer r) rfl hrest

/-- C10: the frame counter is incremented exactly when `render_frame`
writes to an open video writer with `save_video` enabled, and is
otherwise untouched; consequently, with video saving disabled — or with
`save_video` on but no writer ever set up — the counter stays 0 and
every `save_frame` call with `filename=None` auto-generates the same
name "frame_000000.jpg", overwriting the previous still. -/
theorem C10_frame_counter (r₁ r₂ : RendererState) (ops₁ ops₂ : List ROp)
    (h1 : ¬(r₁.saveVideo = true ∧ r₁.videoWriter.isSome = true))
    (h2 : r₂.saveVideo = true) (h3 : r₂.videoWriter.isSome = true)
    (h4 : ∀ op ∈ ops₂, isSetup op = false) :
    renderFrame r₁ = r₁ ∧
    (renderFrame r₂).frameCount = r₂.frameCount + 1 ∧
    (runROps (mkRenderer false) ops₁).frameCount = 0 ∧
    saveFrameName none (runROps (mkRenderer false) ops₁) = "frame_000000.jpg" ∧
    saveFrameName none (runROps (mkRenderer true) ops₂) = "frame_000000.jpg" := by
  have hc1 : (runROps (mkRenderer false) ops₁).frameCount = 0 :=
    (runROps_no_video ops₁ (mkRenderer false) rfl).1
  have hc2 : (runROps (mkRenderer true) ops₂).frameCount = 0 :=
    (runROps_no_writer ops₂ (mkRenderer true) rfl h4).1
  refine ⟨?_, ?_, hc1, ?_, ?_⟩
  · rw [renderFrame, if_neg h1]
  · rw [renderFrame, if_pos ⟨h2, h3⟩]
  · show "frame_" ++ zeroPad6 (runROps (mkRenderer false) ops₁).frameCount ++ ".jpg" = _
    rw [hc1]
    decide
  · show "frame_" ++ zeroPad6 (runROps (mkRenderer true) ops₂).frameCount ++ ".jpg" = _
    rw [hc2]
    decide

/-- C10 witness: a renderer with saving off and a writer, one with
saving on and a writer, and two operation sequences without setup. -/
theorem C10_frame_counter_witness :
    ¬((false : Bool) = true ∧ (some 3 : Option Nat).isSome = true) ∧
    (∀ op ∈ [ROp.render, ROp.cleanup, ROp.render], isSetup op = false) ∧
    (renderFrame ⟨false, some 3, 5⟩ = ⟨false, some 3, 5⟩ ∧
     (renderFrame ⟨true, some 3, 5⟩).frameCount = 5 + 1 ∧
     (runROps (mkRenderer false) [ROp.render, ROp.render]).frameCount = 0 ∧
     saveFrameName none (runROps (mkRenderer false) [ROp.render, ROp.render])
       = "frame_000000.jpg" ∧
     saveFrameName none
         (runROps (mkRenderer true) [ROp.render, ROp.cleanup, ROp.render])
       = "frame_000000.jpg") :=
  ⟨by decide, by decide,
    C10_frame_counter ⟨false, some 3, 5⟩ ⟨true, some 3, 5⟩
      [ROp.render, ROp.render] [ROp.render, ROp.cleanup, ROp.render]
      (by decide) rfl rfl (by decide)⟩

end VATEAM
